import Mathlib

noncomputable section

/-!
Shallow embedding of the ODE right-hand sides, widget callbacks and reaction
terms of the SSCP_2019 teaching notebooks, with theorems checking the
natural-language specification against them.

Embedded source:
* `E2` — `rhs` from "L2/E2 - Exercises on Physical Chemistry.ipynb"
  (law-of-mass-action kinetics for 2 H2 + O2 -> 2 H2O).
* `E6` — `rhs` from "L6/E6/E6_solutions.ipynb" (Hodgkin-Huxley model),
  together with the initial condition, parameter dictionary and the
  column extraction of the plotting cell.
* `RxD` — the bistable reaction term and the `runneuron` widget callback
  of the reaction-diffusion notebook.
-/

namespace E2

/-- Derivative of [H2] as computed in `rhs`: `dH2_dt = -2*k*H2*H2*O2`. -/
def dH2_dt (k H2 O2 : ℝ) : ℝ := -2 * k * H2 * H2 * O2

/-- Derivative of [O2] as computed in `rhs`: `dO2_dt = -k*H2*H2*O2`. -/
def dO2_dt (k H2 O2 : ℝ) : ℝ := -k * H2 * H2 * O2

/-- Derivative of [H2O] as computed in `rhs`: `dH2O_dt = k*H2*H2*O2`. -/
def dH2O_dt (k H2 O2 : ℝ) : ℝ := k * H2 * H2 * O2

/-- `rhs(y, t, k)` of the E2 notebook.  The Python function unpacks
`H2, O2, H2O = y` (an error on any other length, modelled as `none`) and
returns `[dH2_dt, dO2_dt, dH2O_dt]`. -/
def rhs (y : List ℝ) (t k : ℝ) : Option (List ℝ) :=
  match y with
  | [H2, O2, H2O] => some [dH2_dt k H2 O2, dO2_dt k H2 O2, dH2O_dt k H2 O2]
  | _ => none

end E2

namespace E6

/-- The parameter dictionary `p` passed to `rhs` in E6_solutions.ipynb. -/
structure Params where
  Cm : ℝ
  E_Na : ℝ
  E_K : ℝ
  E_L : ℝ
  gNa : ℝ
  gK : ℝ
  gL : ℝ
  I_amp : ℝ

/-- The concrete parameter values set in the notebook's parameter cell. -/
def p0 : Params :=
  { Cm := 1, E_Na := 50, E_K := -80, E_L := -75,
    gNa := 120, gK := 40, gL := 0.3, I_amp := 100 }

/-- `alpha_m = 0.1*(V+40.0)/(1.0-np.exp(-(V+40.0)/10.0))` from `rhs`. -/
def alpha_m (V : ℝ) : ℝ := 0.1 * (V + 40) / (1 - Real.exp (-(V + 40) / 10))

/-- `beta_m = 4.0*np.exp(-(V+65.0)/18.0)` from `rhs`. -/
def beta_m (V : ℝ) : ℝ := 4 * Real.exp (-(V + 65) / 18)

/-- `alpha_h = 0.07*np.exp(-(V+65.0)/20.0)` from `rhs`. -/
def alpha_h (V : ℝ) : ℝ := 0.07 * Real.exp (-(V + 65) / 20)

/-- `beta_h = 1.0/(1.0+np.exp(-(V+35.0)/10.0))` from `rhs`. -/
def beta_h (V : ℝ) : ℝ := 1 / (1 + Real.exp (-(V + 35) / 10))

/-- `alpha_n = 0.01*(V+55.0)/(1.0-np.exp(-(V+55.0)/10.0))` from `rhs`. -/
def alpha_n (V : ℝ) : ℝ := 0.01 * (V + 55) / (1 - Real.exp (-(V + 55) / 10))

/-- `beta_n = 0.125*np.exp(-(V+65)/80.0)` from `rhs`. -/
def beta_n (V : ℝ) : ℝ := 0.125 * Real.exp (-(V + 65) / 80)

/-- `I_app = -I_amp if 2<t<4 else 0.0` from `rhs` (Python's chained
comparison `2<t<4` is `2 < t and t < 4`). -/
def I_app (I_amp t : ℝ) : ℝ := if 2 < t ∧ t < 4 then -I_amp else 0

/-- `I_Na = gNa*m**3*h*(V - E_Na)` from `rhs`. -/
def I_Na (p : Params) (m h V : ℝ) : ℝ := p.gNa * m ^ 3 * h * (V - p.E_Na)

/-- `I_K = gK*n**4*(V - E_K)` from `rhs`. -/
def I_K (p : Params) (n V : ℝ) : ℝ := p.gK * n ^ 4 * (V - p.E_K)

/-- `I_L = gL*(V - E_L)` from `rhs` (computed there but never used). -/
def I_L (p : Params) (V : ℝ) : ℝ := p.gL * (V - p.E_L)

/-- `dm_dt = alpha_m*(1-m) - beta_m*(m)` from `rhs`. -/
def dm_dt (m V : ℝ) : ℝ := alpha_m V * (1 - m) - beta_m V * m

/-- `dh_dt = alpha_h*(1-h) - beta_h*(h)` from `rhs`. -/
def dh_dt (h V : ℝ) : ℝ := alpha_h V * (1 - h) - beta_h V * h

/-- `dn_dt = alpha_n*(1-n) - beta_n*(n)` from `rhs`. -/
def dn_dt (n V : ℝ) : ℝ := alpha_n V * (1 - n) - beta_n V * n

/-- `dV_dt = -(I_Na + I_app + I_K)/Cm` from `rhs`.  Note this is exactly
what the source computes: the leak current `I_L` does not appear. -/
def dV_dt (p : Params) (t m h n V : ℝ) : ℝ :=
  -(I_Na p m h V + I_app p.I_amp t + I_K p n V) / p.Cm

/-- `rhs(y, t, p)` of E6_solutions.ipynb.  The Python function unpacks
`m, h, n, V = y` (an error on any other length, modelled as `none`) and
returns `[dm_dt, dh_dt, dn_dt, dV_dt]`. -/
def rhs (y : List ℝ) (t : ℝ) (p : Params) : Option (List ℝ) :=
  match y with
  | [m, h, n, V] => some [dm_dt m V, dh_dt h V, dn_dt n V, dV_dt p t m h n V]
  | _ => none

/-- The membrane equation displayed in the notebook's markdown:
`Cm dV/dt = -(gNa m^3 h (V-E_Na) + gK n^4 (V-E_K) + gL (V-E_L) + I_app)`,
written from the displayed formula, for comparison with `dV_dt`. -/
def displayed_dV_dt (p : Params) (t m h n V : ℝ) : ℝ :=
  -(p.gNa * m ^ 3 * h * (V - p.E_Na) + p.gK * n ^ 4 * (V - p.E_K)
      + p.gL * (V - p.E_L) + I_app p.I_amp t) / p.Cm

/-- Spec-side gating rates, written from the claim's formulas, for
comparison with the rates computed in `rhs`. -/
def spec_alpha_m (V : ℝ) : ℝ := 0.1 * (V + 40) / (1 - Real.exp (-(V + 40) / 10))

def spec_beta_m (V : ℝ) : ℝ := 4 * Real.exp (-(V + 65) / 18)

def spec_alpha_h (V : ℝ) : ℝ := 0.07 * Real.exp (-(V + 65) / 20)

def spec_beta_h (V : ℝ) : ℝ := 1 / (1 + Real.exp (-(V + 35) / 10))

def spec_alpha_n (V : ℝ) : ℝ := 0.01 * (V + 55) / (1 - Real.exp (-(V + 55) / 10))

def spec_beta_n (V : ℝ) : ℝ := 0.125 * Real.exp (-(V + 65) / 80)

/-- Initial condition cell: `y0 = [m0,h0,n0,V0]` with
`m0 = 0`, `h0 = 1`, `n0 = 0`, `V0 = -80`. -/
def y0 : List ℝ := [0, 1, 0, -80]

/-- Plotting cell: from the solver output rows, the traces are taken as
`m = y[:,0]`, `h = y[:,1]`, `n = y[:,2]`, `V = y[:,3]`. -/
def extractTraces (sol : List (List ℝ)) :
    List ℝ × List ℝ × List ℝ × List ℝ :=
  (sol.map (fun row => row.getD 0 0), sol.map (fun row => row.getD 1 0),
   sol.map (fun row => row.getD 2 0), sol.map (fun row => row.getD 3 0))

end E6

namespace RxD

/-- The bistable reaction term `-u * r_param * (1 - u) * (0.3 - u)` passed
to `rxd.Rate` in the reaction-diffusion notebook. -/
def reactionTerm (r u : ℝ) : ℝ := -u * r * (1 - u) * (0.3 - u)

/-- Number of segments: `dend.nseg = 101`. -/
def nseg : ℕ := 101

/-- The normalized position `node.x` of segment `i` of the compartment
(segment centers, as NEURON assigns them). -/
def nodeX (i : Fin nseg) : ℝ := ((i : ℝ) + 0.5) / (nseg : ℝ)

/-- The mutable simulator state touched by the `runneuron` callback:
the `initial` attribute of `r_param`, the parameter value the dynamics
use, the concentration of species `u` at each node, and the simulator
time `h.t`. -/
structure SimState where
  r_initial : ℝ
  r_value : ℝ
  conc : Fin nseg → ℝ
  t : ℝ

/-- The species `u` is declared with `initial=0`. -/
def speciesInitial : ℝ := 0

/-- `h.finitialize()`: reset time to 0 and every dynamic variable to its
declared initial value; the parameter takes its current `initial`. -/
def finitializeSim (s : SimState) : SimState :=
  { r_initial := s.r_initial, r_value := s.r_initial,
    conc := fun _ => speciesInitial, t := 0 }

/-- The loop `for node in u.nodes: if node.x < fraction_initial:
node.concentration = 1` of `runneuron`. -/
def setStepProfile (frac : ℝ) (s : SimState) : SimState :=
  { s with conc := fun i => if nodeX i < frac then 1 else s.conc i }

/-- The (out-of-scope, third-party) integrator behind `h.continuerun`,
abstracted as an arbitrary deterministic map from the rate parameter,
the current concentrations, the current time and the stop time to the
new concentrations. -/
def Evolution : Type := ℝ → (Fin nseg → ℝ) → ℝ → ℝ → (Fin nseg → ℝ)

/-- `h.continuerun(tstop)`: advance the simulation to time `tstop`. -/
def continuerun (ev : Evolution) (tstop : ℝ) (s : SimState) : SimState :=
  { s with conc := ev s.r_value s.conc s.t tstop, t := tstop }

/-- The `runneuron(rate_param, fraction_initial)` widget callback: set
`r_param.initial`, call `h.finitialize()`, apply the initial step
profile, then plot the concentration profile now and after
`h.continuerun(i * 25)` for `i = 1..4`.  The returned list is the five
concentration profiles that the callback plots. -/
def runneuron (ev : Evolution) (rate_param fraction_initial : ℝ)
    (s : SimState) : List (Fin nseg → ℝ) :=
  let s0 := { s with r_initial := rate_param }
  let s1 := setStepProfile fraction_initial (finitializeSim s0)
  let s2 := continuerun ev 25 s1
  let s3 := continuerun ev 50 s2
  let s4 := continuerun ev 75 s3
  let s5 := continuerun ev 100 s4
  [s1.conc, s2.conc, s3.conc, s4.conc, s5.conc]

end RxD

/-- C1: at the state (m,h,n,V) = (0,0,0,0), time t = 0 and the notebook's
parameter dictionary, the fourth component returned by `rhs` in
E6_solutions.ipynb is 0, while the membrane equation displayed in the same
notebook gives -(gL*(0 - E_L))/Cm = -45/2: the code omits the leak current
I_L from dV_dt, so the two differ. -/
theorem c1_dV_dt_omits_leak_current :
    ((E6.rhs [0, 0, 0, 0] 0 E6.p0).getD []).getD 3 0 = 0 ∧
    E6.displayed_dV_dt E6.p0 0 0 0 0 0 = -(45 / 2) ∧
    ((E6.rhs [0, 0, 0, 0] 0 E6.p0).getD []).getD 3 0 ≠
      E6.displayed_dV_dt E6.p0 0 0 0 0 0 := by
  refine ⟨?_, ?_, ?_⟩ <;>
    norm_num [E6.rhs, E6.dV_dt, E6.displayed_dV_dt, E6.I_Na, E6.I_K,
      E6.I_app, E6.p0]

/-- C2: the derivatives returned by `rhs` in the E2 notebook satisfy
dH2_dt = -2*dH2O_dt and dO2_dt = -dH2O_dt, so H2 + 2*H2O and O2 + H2O
have zero derivative along the vector field. -/
theorem c2_mass_action_stoichiometry (H2 O2 H2O t k : ℝ) :
    E2.rhs [H2, O2, H2O] t k =
      some [E2.dH2_dt k H2 O2, E2.dO2_dt k H2 O2, E2.dH2O_dt k H2 O2] ∧
    E2.dH2_dt k H2 O2 = -2 * E2.dH2O_dt k H2 O2 ∧
    E2.dO2_dt k H2 O2 = -E2.dH2O_dt k H2 O2 ∧
    E2.dH2_dt k H2 O2 + 2 * E2.dH2O_dt k H2 O2 = 0 ∧
    E2.dO2_dt k H2 O2 + E2.dH2O_dt k H2 O2 = 0 := by
  refine ⟨rfl, ?_, ?_, ?_, ?_⟩ <;>
    simp only [E2.dH2_dt, E2.dO2_dt, E2.dH2O_dt] <;> ring

/-- C4: `rhs` in the E2 notebook maps every 3-component state vector to a
derivative list of length 3, and `rhs` in E6_solutions.ipynb maps every
4-component state vector to a derivative list of length 4. -/
theorem c4_rhs_preserves_length :
    (∀ (y : List ℝ) (t k : ℝ), y.length = 3 →
      ∃ d, E2.rhs y t k = some d ∧ d.length = y.length) ∧
    (∀ (y : List ℝ) (t : ℝ) (p : E6.Params), y.length = 4 →
      ∃ d, E6.rhs y t p = some d ∧ d.length = y.length) := by
  constructor
  · intro y t k hl
    match y, hl with
    | [a, b, c], _ => exact ⟨_, rfl, rfl⟩
  · intro y t p hl
    match y, hl with
    | [a, b, c, d], _ => exact ⟨_, rfl, rfl⟩

/-- Witness for C4 at the notebooks' own initial conditions. -/
theorem c4_rhs_preserves_length_witness :
    (([1, 1, 0] : List ℝ).length = 3 ∧
      ∃ d, E2.rhs [1, 1, 0] 0 10 = some d ∧ d.length = 3) ∧
    ((E6.y0.length = 4) ∧
      ∃ d, E6.rhs E6.y0 0 E6.p0 = some d ∧ d.length = 4) :=
  ⟨⟨rfl, c4_rhs_preserves_length.1 [1, 1, 0] 0 10 rfl⟩,
   ⟨rfl, c4_rhs_preserves_length.2 E6.y0 0 E6.p0 rfl⟩⟩

/-- C6: two invocations of the `runneuron` widget callback with equal
arguments produce equal simulated concentration profiles, whatever the
prior simulator state left by earlier slider changes: the callback
overwrites `r_param.initial`, resets everything with `h.finitialize`, and
re-applies the same initial step profile, for any deterministic behaviour
of the underlying integrator. -/
theorem c6_runneuron_history_independent (ev : RxD.Evolution)
    (rate_param fraction_initial : ℝ) (s s' : RxD.SimState) :
    RxD.runneuron ev rate_param fraction_initial s =
      RxD.runneuron ev rate_param fraction_initial s' := rfl

/-- C8: in `rhs` of E6_solutions.ipynb the applied current equals -I_amp
when 2 < t < 4 (strict inequalities), equals 0 for every other t, and in
particular is 0 at t = 2 and t = 4. -/
theorem c8_stimulus_open_window (t I_amp : ℝ) :
    (2 < t ∧ t < 4 → E6.I_app I_amp t = -I_amp) ∧
    (¬(2 < t ∧ t < 4) → E6.I_app I_amp t = 0) ∧
    E6.I_app I_amp 2 = 0 ∧ E6.I_app I_amp 4 = 0 := by
  refine ⟨fun h => if_pos h, fun h => if_neg h, ?_, ?_⟩ <;>
    simp [E6.I_app]

/-- Witness for C8: at t = 3 the window condition holds and the applied
current is -100 for the notebook's I_amp = 100. -/
theorem c8_stimulus_open_window_witness :
    ((2 : ℝ) < 3 ∧ (3 : ℝ) < 4) ∧ E6.I_app 100 3 = -100 :=
  ⟨⟨by norm_num, by norm_num⟩,
   (c8_stimulus_open_window 3 100).1 ⟨by norm_num, by norm_num⟩⟩

/-- C3: away from V = -40 and V = -55 (where the rate denominators
vanish), the first three components returned by `rhs` in
E6_solutions.ipynb are the Hodgkin-Huxley gating equations
dx/dt = alpha_x(V)*(1-x) - beta_x(V)*x with the claimed rate formulas. -/
theorem c3_gating_components (m h n V t : ℝ) (p : E6.Params)
    (hV40 : V ≠ -40) (hV55 : V ≠ -55) :
    ∃ d, E6.rhs [m, h, n, V] t p = some d ∧
      d.getD 0 0 = E6.spec_alpha_m V * (1 - m) - E6.spec_beta_m V * m ∧
      d.getD 1 0 = E6.spec_alpha_h V * (1 - h) - E6.spec_beta_h V * h ∧
      d.getD 2 0 = E6.spec_alpha_n V * (1 - n) - E6.spec_beta_n V * n :=
  ⟨_, rfl, rfl, rfl, rfl⟩

/-- Witness for C3 at the state (0, 1, 0, 0) and time 0. -/
theorem c3_gating_components_witness :
    ((0 : ℝ) ≠ -40) ∧ ((0 : ℝ) ≠ -55) ∧
    ∃ d, E6.rhs [0, 1, 0, 0] 0 E6.p0 = some d ∧
      d.getD 0 0 = E6.spec_alpha_m 0 * (1 - 0) - E6.spec_beta_m 0 * 0 ∧
      d.getD 1 0 = E6.spec_alpha_h 0 * (1 - 1) - E6.spec_beta_h 0 * 1 ∧
      d.getD 2 0 = E6.spec_alpha_n 0 * (1 - 0) - E6.spec_beta_n 0 * 0 :=
  ⟨by norm_num, by norm_num,
   c3_gating_components 0 1 0 0 0 E6.p0 (by norm_num) (by norm_num)⟩

/-- The voltage-dependent opening rates of `rhs` have the shape
c*(V+a)/(1-exp(-(V+a)/10)); this is strictly positive whenever V is not
-a, whether V+a is positive (numerator and denominator both positive) or
negative (both negative). -/
lemma alpha_like_pos (c a V : ℝ) (hc : 0 < c) (hV : V ≠ -a) :
    0 < c * (V + a) / (1 - Real.exp (-(V + a) / 10)) := by
  have hx : V + a ≠ 0 := fun hz => hV (by linarith)
  rcases hx.lt_or_lt with hlt | hgt
  · have h1 : (1 : ℝ) < Real.exp (-(V + a) / 10) :=
      Real.one_lt_exp_iff.mpr (by linarith)
    exact div_pos_iff.mpr (Or.inr ⟨mul_neg_of_pos_of_neg hc hlt, by linarith⟩)
  · have h1 : Real.exp (-(V + a) / 10) < 1 :=
      Real.exp_lt_one_iff.mpr (by linarith)
    exact div_pos (mul_pos hc hgt) (by linarith)

/-- C5: away from V = -40 and V = -55, all six transition rates computed
in `rhs` of E6_solutions.ipynb are strictly positive, so each gating
derivative is nonnegative at gate value 0 and nonpositive at gate value
1 — the sign conditions that make the unit cube forward-invariant for the
gating subsystem. -/
theorem c5_gating_rates_positive (V : ℝ)
    (hV40 : V ≠ -40) (hV55 : V ≠ -55) :
    (0 < E6.alpha_m V ∧ 0 < E6.beta_m V ∧ 0 < E6.alpha_h V ∧
      0 < E6.beta_h V ∧ 0 < E6.alpha_n V ∧ 0 < E6.beta_n V) ∧
    (0 ≤ E6.dm_dt 0 V ∧ E6.dm_dt 1 V ≤ 0) ∧
    (0 ≤ E6.dh_dt 0 V ∧ E6.dh_dt 1 V ≤ 0) ∧
    (0 ≤ E6.dn_dt 0 V ∧ E6.dn_dt 1 V ≤ 0) := by
  have ham : 0 < E6.alpha_m V := alpha_like_pos 0.1 40 V (by norm_num) hV40
  have han : 0 < E6.alpha_n V := alpha_like_pos 0.01 55 V (by norm_num) hV55
  have hbm : 0 < E6.beta_m V := by unfold E6.beta_m; positivity
  have hah : 0 < E6.alpha_h V := by unfold E6.alpha_h; positivity
  have hbh : 0 < E6.beta_h V := by unfold E6.beta_h; positivity
  have hbn : 0 < E6.beta_n V := by unfold E6.beta_n; positivity
  refine ⟨⟨ham, hbm, hah, hbh, han, hbn⟩, ⟨?_, ?_⟩, ⟨?_, ?_⟩, ⟨?_, ?_⟩⟩ <;>
    simp only [E6.dm_dt, E6.dh_dt, E6.dn_dt] <;> nlinarith

/-- Witness for C5 at V = 0. -/
theorem c5_gating_rates_positive_witness :
    ((0 : ℝ) ≠ -40) ∧ ((0 : ℝ) ≠ -55) ∧
    ((0 < E6.alpha_m 0 ∧ 0 < E6.beta_m 0 ∧ 0 < E6.alpha_h 0 ∧
        0 < E6.beta_h 0 ∧ 0 < E6.alpha_n 0 ∧ 0 < E6.beta_n 0) ∧
      (0 ≤ E6.dm_dt 0 0 ∧ E6.dm_dt 1 0 ≤ 0) ∧
      (0 ≤ E6.dh_dt 0 0 ∧ E6.dh_dt 1 0 ≤ 0) ∧
      (0 ≤ E6.dn_dt 0 0 ∧ E6.dn_dt 1 0 ≤ 0)) :=
  ⟨by norm_num, by norm_num,
   c5_gating_rates_positive 0 (by norm_num) (by norm_num)⟩

/-- C7 as stated is false: the reaction term is also strictly positive for
negative concentrations, e.g. at u = -1, r = 1 it equals 2.6 > 0 although
-1 is not in (0.3, 1). -/
theorem c7_sign_pattern_counterexample :
    0 < RxD.reactionTerm 1 (-1) ∧ ¬((0.3 : ℝ) < -1 ∧ (-1 : ℝ) < 1) := by
  norm_num [RxD.reactionTerm]

/-- C7 amended: restricted to nonnegative concentrations u (with rate
r > 0), the reaction term -u*r*(1-u)*(0.3-u) is strictly positive exactly
when 0.3 < u < 1, strictly negative exactly when 0 < u < 0.3 or u > 1,
and zero exactly at u in {0, 0.3, 1}. -/
theorem c7_sign_pattern (r u : ℝ) (hr : 0 < r) (hu : 0 ≤ u) :
    (0 < RxD.reactionTerm r u ↔ 0.3 < u ∧ u < 1) ∧
    (RxD.reactionTerm r u < 0 ↔ (0 < u ∧ u < 0.3) ∨ 1 < u) ∧
    (RxD.reactionTerm r u = 0 ↔ u = 0 ∨ u = 0.3 ∨ u = 1) := by
  have key : RxD.reactionTerm r u = u * r * (1 - u) * (u - 0.3) := by
    unfold RxD.reactionTerm; ring
  rcases eq_or_lt_of_le hu with rfl | h0
  · norm_num [RxD.reactionTerm]
  · rcases lt_trichotomy u 0.3 with h3 | h3 | h3
    · have hneg : RxD.reactionTerm r u < 0 := by
        rw [key]
        exact mul_neg_of_pos_of_neg
          (mul_pos (mul_pos h0 hr) (by linarith)) (by linarith)
      refine ⟨?_, ?_, ?_⟩
      · constructor
        · intro hp; linarith
        · rintro ⟨ha, -⟩; linarith
      · exact ⟨fun _ => Or.inl ⟨h0, h3⟩, fun _ => hneg⟩
      · constructor
        · intro he; exact ((ne_of_lt hneg) he).elim
        · rintro (rfl | rfl | rfl) <;> linarith
    · subst h3
      have hz : RxD.reactionTerm r 0.3 = 0 := by rw [key]; ring
      refine ⟨?_, ?_, ?_⟩
      · constructor
        · intro hp; rw [hz] at hp; linarith
        · rintro ⟨ha, -⟩; linarith
      · constructor
        · intro hn; rw [hz] at hn; linarith
        · rintro (⟨-, hb⟩ | hb) <;> linarith
      · exact ⟨fun _ => Or.inr (Or.inl rfl), fun _ => hz⟩
    · rcases lt_trichotomy u 1 with h1 | h1 | h1
      · have hpos : 0 < RxD.reactionTerm r u := by
          rw [key]
          exact mul_pos
            (mul_pos (mul_pos (by linarith) hr) (by linarith)) (by linarith)
        refine ⟨⟨fun _ => ⟨h3, h1⟩, fun _ => hpos⟩, ?_, ?_⟩
        · constructor
          · intro hn; linarith
          · rintro (⟨-, hb⟩ | hb) <;> linarith
        · constructor
          · intro he; exact ((ne_of_gt hpos) he).elim
          · rintro (rfl | rfl | rfl) <;> linarith
      · subst h1
        have hz : RxD.reactionTerm r 1 = 0 := by rw [key]; ring
        refine ⟨?_, ?_, ?_⟩
        · constructor
          · intro hp; rw [hz] at hp; linarith
          · rintro ⟨-, hb⟩; linarith
        · constructor
          · intro hn; rw [hz] at hn; linarith
          · rintro (⟨-, hb⟩ | hb) <;> linarith
        · exact ⟨fun _ => Or.inr (Or.inr rfl), fun _ => hz⟩
      · have hneg : RxD.reactionTerm r u < 0 := by
          rw [key]
          exact mul_neg_of_neg_of_pos
            (mul_neg_of_pos_of_neg (mul_pos (by linarith) hr) (by linarith))
            (by linarith)
        refine ⟨?_, ⟨fun _ => Or.inr h1, fun _ => hneg⟩, ?_⟩
        · constructor
          · intro hp; linarith
          · rintro ⟨-, hb⟩; linarith
        · constructor
          · intro he; exact ((ne_of_lt hneg) he).elim
          · rintro (rfl | rfl | rfl) <;> linarith

/-- Witness for the amended C7 at r = 1, u = 1/2 (the positive regime). -/
theorem c7_sign_pattern_witness :
    (0 : ℝ) < 1 ∧ (0 : ℝ) ≤ 1 / 2 ∧
    ((0 < RxD.reactionTerm 1 (1 / 2) ↔ 0.3 < (1 / 2 : ℝ) ∧ (1 / 2 : ℝ) < 1) ∧
     (RxD.reactionTerm 1 (1 / 2) < 0 ↔
        (0 < (1 / 2 : ℝ) ∧ (1 / 2 : ℝ) < 0.3) ∨ 1 < (1 / 2 : ℝ)) ∧
     (RxD.reactionTerm 1 (1 / 2) = 0 ↔
        (1 / 2 : ℝ) = 0 ∨ (1 / 2 : ℝ) = 0.3 ∨ (1 / 2 : ℝ) = 1)) :=
  ⟨by norm_num, by norm_num, c7_sign_pattern 1 (1 / 2) (by norm_num) (by norm_num)⟩

/-- C9: the state ordering is consistent end to end: the initial condition
cell builds y0 = [m0, h0, n0, V0] = [0, 1, 0, -80]; `rhs` returns the
derivatives in the order [dm_dt, dh_dt, dn_dt, dV_dt], each governing the
state at the same index; and the plotting cell extracts the solver output
columns in that same order (m = column 0, h = column 1, n = column 2,
V = column 3). -/
theorem c9_state_ordering_consistent :
    E6.y0 = [0, 1, 0, -80] ∧
    (∀ m h n V t p, ∃ d, E6.rhs [m, h, n, V] t p = some d ∧
      d.getD 0 0 = E6.dm_dt m V ∧ d.getD 1 0 = E6.dh_dt h V ∧
      d.getD 2 0 = E6.dn_dt n V ∧ d.getD 3 0 = E6.dV_dt p t m h n V) ∧
    (∀ sol : List (List ℝ),
      E6.extractTraces sol =
        (sol.map fun row => row.getD 0 0, sol.map fun row => row.getD 1 0,
         sol.map fun row => row.getD 2 0, sol.map fun row => row.getD 3 0)) :=
  ⟨rfl, fun m h n V t p => ⟨_, rfl, rfl, rfl, rfl, rfl⟩, fun sol => rfl⟩
